import Mathlib

/-!
Verification of `src/submissions/nikeshboopath-jpg/invoke_transfer.py`.

The Python module orchestrates a money transfer against a remote HTTP
service: validate the source account, validate the destination account,
fetch the source balance, compare to the requested amount, then POST the
transfer and interpret the response.

Shallow embedding conventions:
* An HTTP response object (the relevant surface of `requests.Response`,
  matching the `DummyResponse` used by the repository's tests) is a record
  of status code, the result of `.json()` (`none` when the body is not
  valid JSON, in which case `.json()` raises `ValueError`), the raw `.text`,
  and the `Content-Type` header.
* A transport failure (`requests.RequestException`: connection error, DNS
  failure, timeout) is `Option.none` in place of a response.
* `raise_for_status` raises `HTTPError` (a `RequestException`) exactly when
  `400 ≤ status`, as in the tests' `DummyResponse`.
* JSON values are the inductive `Json`; Python floats are embedded as
  rationals (finite decimals; `inf`/`nan` are outside this embedding).
* Python exceptions that the module does NOT catch are made explicit with
  `Except PyExn`: `float(x)` on a `None`/list/dict raises `TypeError`, and
  `.get` on a non-dict raises `AttributeError`; neither is caught anywhere
  in the module.
* The network is a `World`: a function from the full outgoing request
  (method, URL, headers, JSON body, timeout) to a transport outcome.
  `transfer_money` also returns the trace of requests it issued, so that
  "endpoint never invoked" claims are statable.
-/

/-- JSON values, as produced by `resp.json()`. Objects are association
lists in document order. -/
inductive Json where
  | null : Json
  | bool (b : Bool) : Json
  | num (q : ℚ) : Json
  | str (s : String) : Json
  | arr (xs : List Json) : Json
  | obj (fields : List (String × Json)) : Json

/-- Python truthiness of a JSON value (`if x:`). -/
def Json.truthy : Json → Bool
  | .null => false
  | .bool b => b
  | .num q => q ≠ 0
  | .str s => s ≠ ""
  | .arr xs => !xs.isEmpty
  | .obj fs => !fs.isEmpty

/-- `d.get(k)` / `k in d` support: first value bound to `k` in the object. -/
def Json.lookupField (fields : List (String × Json)) (k : String) : Option Json :=
  match fields with
  | [] => none
  | (k', v) :: rest => if k' = k then some v else Json.lookupField rest k

/-- Python exceptions that escape the module uncaught. -/
inductive PyExn where
  | typeError : PyExn
  | attributeError : PyExn
deriving DecidableEq

/-- The surface of a `requests.Response` that the module touches:
`status_code`, `.json()` (`none` means the body is not valid JSON and
`.json()` raises `ValueError`), `.text`, and `headers.get("Content-Type", "")`. -/
structure HttpResponse where
  status : Nat
  jsonBody : Option Json
  text : String
  contentType : String

/-- `none` models a `requests.RequestException` (connection refused, DNS
failure, timeout); `some r` is a delivered response. -/
abbrev HttpResult := Option HttpResponse

/-- HTTP method of an outgoing request. -/
inductive HttpMethod where
  | get : HttpMethod
  | post : HttpMethod
deriving DecidableEq

/-- An outgoing request as issued by the module: method, URL, headers,
JSON body (for POST), timeout. -/
structure Request where
  method : HttpMethod
  url : String
  headers : List (String × String)
  jsonPayload : Option Json
  timeout : ℚ

/-- The network environment: what each request receives back. -/
structure World where
  respond : Request → HttpResult

/-- Python `s.rstrip('/')`: remove every trailing `'/'`. -/
def rstripSlash (s : String) : String :=
  String.mk ((s.toList.reverse.dropWhile (fun c => c = '/')).reverse)

/-- Python `s.endswith(suffix)`. -/
def pyEndsWith (s suffix : String) : Bool :=
  suffix.toList.isSuffixOf s.toList

/-- Python `sub in s`: substring containment. -/
def pyContains (s sub : String) : Bool :=
  (List.range (s.toList.length + 1)).any
    (fun i => sub.toList.isPrefixOf (s.toList.drop i))

/-- Python `s.strip()`: remove leading and trailing whitespace. -/
def pyStrip (s : String) : String :=
  String.mk (((s.toList.dropWhile Char.isWhitespace).reverse.dropWhile
    Char.isWhitespace).reverse)

/-- Digits of a decimal literal, most significant first, as a natural. -/
def digitsToNat (ds : List Char) : Nat :=
  ds.foldl (fun acc c => acc * 10 + (c.toNat - '0'.toNat)) 0

/-- Parse an optional sign. Returns (negative?, rest). -/
def parseSign : List Char → Bool × List Char
  | '-' :: rest => (true, rest)
  | '+' :: rest => (false, rest)
  | cs => (false, cs)

/-- Assemble a decimal `int . frac e exp` into a rational:
`±(ip.fp) · 10^(±ep)`, built with `mkRat` so that concrete instances
reduce in the kernel. -/
def assembleDecimal (neg : Bool) (ip fp : List Char) (eneg : Bool)
    (ep : List Char) : ℚ :=
  let m : Int := (digitsToNat (ip ++ fp) : Int)
  let m : Int := if neg then -m else m
  let e : Int :=
    (if eneg then -(digitsToNat ep : Int) else (digitsToNat ep : Int))
      - (fp.length : Int)
  if 0 ≤ e then mkRat (m * (10 : Int) ^ e.toNat) 1
  else mkRat m ((10 : Nat) ^ (-e).toNat)

/-- Model of Python `float(s)` on finite decimal notation: optional
whitespace, optional sign, then `digits[.digits]`, `.digits` or `digits.`,
with an optional `e`/`E` exponent. (`inf`/`nan` are outside the rational
embedding; `float` on such strings is not modelled.) Returns `none` when
Python would raise `ValueError`. -/
def pyFloatOfString (s : String) : Option ℚ :=
  let cs := (pyStrip s).toList
  let (neg, cs) := parseSign cs
  let ip := cs.takeWhile Char.isDigit
  let rest := cs.dropWhile Char.isDigit
  match rest with
  | [] => if ip.isEmpty then none else some (assembleDecimal neg ip [] false [])
  | '.' :: rest2 =>
    let fp := rest2.takeWhile Char.isDigit
    let rest3 := rest2.dropWhile Char.isDigit
    if ip.isEmpty && fp.isEmpty then none
    else
      match rest3 with
      | [] => some (assembleDecimal neg ip fp false [])
      | e :: rest4 =>
        if e = 'e' ∨ e = 'E' then
          let (eneg, rest5) := parseSign rest4
          let ep := rest5.takeWhile Char.isDigit
          if ep.isEmpty ∨ ¬(rest5.dropWhile Char.isDigit).isEmpty then none
          else some (assembleDecimal neg ip fp eneg ep)
        else none
  | e :: rest2 =>
    if (e = 'e' ∨ e = 'E') && !ip.isEmpty then
      let (eneg, rest3) := parseSign rest2
      let ep := rest3.takeWhile Char.isDigit
      if ep.isEmpty ∨ ¬(rest3.dropWhile Char.isDigit).isEmpty then none
      else some (assembleDecimal neg ip [] eneg ep)
    else none

/-- `float(x)` applied to a JSON value, as in `float(data["balance"])`:
numbers pass through, booleans coerce (`float(True) = 1.0`, since `bool`
is a subclass of `int`), strings are parsed (`ValueError` when unparseable,
modelled as `.ok none`), and `None`/lists/dicts raise `TypeError`. -/
def pyFloatOfJson : Json → Except PyExn (Option ℚ)
  | .num q => .ok (some q)
  | .bool b => .ok (some (if b then 1 else 0))
  | .str s => .ok (pyFloatOfString s)
  | .null => .error .typeError
  | .arr _ => .error .typeError
  | .obj _ => .error .typeError

/-- Whether a JSON value lands in the bare-number branch
`isinstance(data, (int, float))`: true for numbers AND booleans (Python
`bool` subclasses `int`). -/
def isPyNumber : Json → Bool
  | .num _ => true
  | .bool _ => true
  | _ => false

/-- Numeric value of a JSON value in the bare-number branch (`float(data)`). -/
def pyNumVal : Json → ℚ
  | .num q => q
  | .bool b => if b then 1 else 0
  | _ => 0

/-- `DEFAULT_ENDPOINT` constant from the module. -/
def DEFAULT_ENDPOINT : String := "http://localhost:8123/"

/-- `endpoint or DEFAULT_ENDPOINT`: Python `or` falls through on a falsy
(empty) string. -/
def effectiveEndpoint (endpoint : String) : String :=
  if endpoint = "" then DEFAULT_ENDPOINT else endpoint

/-- `validate_account`, lines 105–118: GET
`{base.rstrip('/')}/accounts/validate/{id}`; exactly status 200 is valid;
any other status, or a transport failure, is invalid. Parametrised over
the delivered transport outcome. -/
def validate_account (resp : HttpResult) : Bool :=
  match resp with
  | some r => r.status = 200
  | none => false

/-- URL of the validation GET issued by `validate_account`. -/
def validateUrl (base_url account_id : String) : String :=
  rstripSlash base_url ++ "/accounts/validate/" ++ account_id

/-- URL of the balance GET issued by `get_account_balance`. -/
def balanceUrl (base_url account_id : String) : String :=
  rstripSlash base_url ++ "/accounts/balance/" ++ account_id

/-- `get_account_balance`, lines 121–148, applied to the transport outcome
of its GET. Control flow from the source:
* transport failure (`RequestException`) → caught → `None`;
* `raise_for_status` raises for `400 ≤ status`, caught by the same outer
  handler → `None`;
* otherwise try `resp.json()`:
  - a dict containing `"balance"` → `float(data["balance"])`; a string
    value that fails to parse raises `ValueError`, caught by the inner
    handler which then tries `resp.text`; a `None`/list/dict value raises
    an uncaught `TypeError`;
  - a bare number (or boolean) → `float(data)`;
  - any other JSON shape → logged, falls through → `None`;
  - body not valid JSON (`ValueError` from `.json()`) → try
    `float(resp.text.strip())`, `None` when that fails too. -/
def balanceFromJson (data : Json) (text : String) :
    Except PyExn (Option ℚ) :=
  match data with
  | .obj fields =>
    match Json.lookupField fields "balance" with
    | some v =>
      match pyFloatOfJson v with
      | .error e => .error e
      | .ok (some q) => .ok (some q)
      | .ok none => .ok (pyFloatOfString (pyStrip text))
    | none => .ok none
  | d => if isPyNumber d then .ok (some (pyNumVal d)) else .ok none

def get_account_balance (resp : HttpResult) : Except PyExn (Option ℚ) :=
  match resp with
  | none => .ok none
  | some r =>
    if 400 ≤ r.status then .ok none
    else
      match r.jsonBody with
      | some data => balanceFromJson data r.text
      | none => .ok (pyFloatOfString (pyStrip r.text))

/-- The token value `data.get("token") or data.get("access_token")`
followed by `if token:`: the first truthy of the two fields, else `None`. -/
def pyTokenOf (fields : List (String × Json)) : Option Json :=
  match Json.lookupField fields "token" with
  | some v =>
    if v.truthy then some v
    else
      match Json.lookupField fields "access_token" with
      | some w => if w.truthy then some w else none
      | none => none
  | none =>
    match Json.lookupField fields "access_token" with
    | some w => if w.truthy then some w else none
    | none => none

/-- `get_auth_token`, lines 81–102, applied to the transport outcome of its
POST to `{base.rstrip('/')}/authToken?claim={claim}`:
* transport failure or error status (≥ 400) → `RequestException` caught →
  `None`;
* body not valid JSON → `ValueError` caught → `None`;
* JSON object body → first truthy of `token` / `access_token`, else `None`;
* a non-dict JSON body reaches `data.get(...)`, raising an uncaught
  `AttributeError`. -/
def get_auth_token (resp : HttpResult) : Except PyExn (Option Json) :=
  match resp with
  | none => .ok none
  | some r =>
    if 400 ≤ r.status then .ok none
    else
      match r.jsonBody with
      | none => .ok none
      | some data =>
        match data with
        | .obj fields => .ok (pyTokenOf fields)
        | _ => .error .attributeError

/-- Header construction, lines 179–181: `if auth_token:` — only a truthy
(non-`None`, non-empty) token attaches the `Authorization` header. -/
def mkHeaders (auth_token : Option String) : List (String × String) :=
  match auth_token with
  | some t => if t = "" then [] else [("Authorization", "Bearer " ++ t)]
  | none => []

/-- The validation GET request issued for an account. -/
def validateReq (ep account_id : String) (headers : List (String × String))
    (timeout : ℚ) : Request :=
  { method := .get, url := validateUrl ep account_id, headers := headers,
    jsonPayload := none, timeout := timeout }

/-- The balance GET request issued for an account. -/
def balanceReq (ep account_id : String) (headers : List (String × String))
    (timeout : ℚ) : Request :=
  { method := .get, url := balanceUrl ep account_id, headers := headers,
    jsonPayload := none, timeout := timeout }

/-- Transfer POST target, lines 202–204: strip trailing slashes from the
endpoint; use it verbatim when it already ends in `/transfer`, otherwise
append `/transfer`. -/
def transferUrl (ep : String) : String :=
  let base := rstripSlash ep
  if pyEndsWith base "/transfer" then base else base ++ "/transfer"

/-- The JSON payload of the transfer POST, lines 168–172. -/
def transferPayload (from_acc to_acc : String) (amount : ℚ) : Json :=
  .obj [("fromAccount", .str from_acc), ("toAccount", .str to_acc),
        ("amount", .num amount)]

/-- The transfer POST request. -/
def transferReq (ep from_acc to_acc : String) (amount : ℚ)
    (headers : List (String × String)) (timeout : ℚ) : Request :=
  { method := .post, url := transferUrl ep, headers := headers,
    jsonPayload := some (transferPayload from_acc to_acc amount),
    timeout := timeout }

/-- The structured insufficient-funds result, line 199. -/
def insufficientFunds (balance amount : ℚ) : Json :=
  .obj [("status", .str "FAILED"), ("message", .str "Insufficient funds"),
        ("availableBalance", .num balance), ("requestedAmount", .num amount)]

/-- Interpretation of the transfer POST response, lines 205–225:
transport failure or status ≥ 400 → `None` (exception caught); a 
content type containing `"application/json"` → `resp.json()` (`ValueError`
caught → `None`); any other content type → `{"text": resp.text}`. -/
def interpretTransfer (resp : HttpResult) : Option Json :=
  match resp with
  | none => none
  | some r =>
    if 400 ≤ r.status then none
    else if pyContains r.contentType "application/json" then
      match r.jsonBody with
      | some j => some j
      | none => none
    else some (.obj [("text", .str r.text)])

/-- `transfer_money`, lines 151–225, over a network environment `w`.
Returns the Python return value (with uncaught exceptions explicit in
`Except`) together with the trace of requests issued, in order. -/
def transfer_money (w : World) (from_acc to_acc : String) (amount : ℚ)
    (endpoint : Option String) (timeout : ℚ) (auth_token : Option String) :
    Except PyExn (Option Json) × List Request :=
  let ep := effectiveEndpoint (endpoint.getD DEFAULT_ENDPOINT)
  let headers := mkHeaders auth_token
  let req1 := validateReq ep from_acc headers timeout
  if ¬ validate_account (w.respond req1) then (.ok none, [req1])
  else
    let req2 := validateReq ep to_acc headers timeout
    if ¬ validate_account (w.respond req2) then (.ok none, [req1, req2])
    else
      let req3 := balanceReq ep from_acc headers timeout
      match get_account_balance (w.respond req3) with
      | .error e => (.error e, [req1, req2, req3])
      | .ok none => (.ok none, [req1, req2, req3])
      | .ok (some balance) =>
        if balance < amount then
          (.ok (some (insufficientFunds balance amount)), [req1, req2, req3])
        else
          let req4 := transferReq ep from_acc to_acc amount headers timeout
          (.ok (interpretTransfer (w.respond req4)), [req1, req2, req3, req4])

/-! ## Claim theorems -/

/-- C1: when both account validations return HTTP 200, the balance fetch
yields a balance ≥ amount, and the transfer POST returns a 2xx response
with a JSON content type and a parseable JSON body, `transfer_money`
returns the transfer endpoint's parsed JSON payload unmodified. -/
theorem claim_C1_success_payload_unmodified
    (w : World) (from_acc to_acc : String) (amount : ℚ)
    (endpoint : Option String) (timeout : ℚ) (auth_token : Option String)
    (ep : String) (hs : List (String × String)) (b : ℚ)
    (tr : HttpResponse) (j : Json)
    (hep : ep = effectiveEndpoint (endpoint.getD DEFAULT_ENDPOINT))
    (hhs : hs = mkHeaders auth_token)
    (hsrc : validate_account (w.respond (validateReq ep from_acc hs timeout)) = true)
    (hdst : validate_account (w.respond (validateReq ep to_acc hs timeout)) = true)
    (hbal : get_account_balance (w.respond (balanceReq ep from_acc hs timeout))
      = .ok (some b))
    (hle : amount ≤ b)
    (htr : w.respond (transferReq ep from_acc to_acc amount hs timeout) = some tr)
    (hst : 200 ≤ tr.status ∧ tr.status < 300)
    (hct : pyContains tr.contentType "application/json" = true)
    (hjson : tr.jsonBody = some j) :
    (transfer_money w from_acc to_acc amount endpoint timeout auth_token).1
      = .ok (some j) := by
  subst hep hhs
  simp only [transfer_money]
  rw [hsrc, hdst, hbal]
  simp only [not_true_eq_false, if_false]
  rw [if_neg (not_lt.mpr hle)]
  rw [htr]
  simp only [interpretTransfer]
  rw [if_neg (by omega : ¬ 400 ≤ tr.status), if_pos hct, hjson]

/-- A 200 response with a JSON body (used by concrete scenarios). -/
def respOk (j : Json) : HttpResult :=
  some { status := 200, jsonBody := some j, text := "",
         contentType := "application/json" }

/-- The transfer endpoint's payload in the end-to-end success scenario. -/
def txPayload : Json :=
  .obj [("transactionId", .str "tx123"), ("status", .str "SUCCESS")]

/-- Network environment of the end-to-end success scenario from the spec
and the repository's tests: both accounts validate, balance 1000,
transfer succeeds with `txPayload`. -/
def wSuccess : World :=
  ⟨fun req =>
    if req.url = validateUrl "http://example" "ACC1000" then respOk (.obj [])
    else if req.url = validateUrl "http://example" "ACC1001" then respOk (.obj [])
    else if req.url = balanceUrl "http://example" "ACC1000" then
      respOk (.obj [("id", .str "ACC1000"), ("balance", .num 1000)])
    else if req.url = transferUrl "http://example" then respOk txPayload
    else none⟩

/-- C1 witness: the end-to-end success scenario (ACC1000 → ACC1001,
amount 100, balance 1000) returns the transfer endpoint's payload. -/
theorem claim_C1_witness :
    (transfer_money wSuccess "ACC1000" "ACC1001" 100 (some "http://example")
      1 none).1 = .ok (some txPayload) :=
  claim_C1_success_payload_unmodified wSuccess "ACC1000" "ACC1001" 100
    (some "http://example") 1 none "http://example" [] 1000
    { status := 200, jsonBody := some txPayload, text := "",
      contentType := "application/json" } txPayload
    rfl rfl rfl rfl rfl (by norm_num) rfl ⟨by norm_num, by norm_num⟩ rfl rfl

/-- C2: when both validations succeed and the fetched balance satisfies
`balance < amount`, `transfer_money` returns exactly the structured
insufficient-funds dictionary (not `None`), and the transfer POST is never
issued: the trace is exactly the two validation GETs and the balance GET,
all of them GET requests. -/
theorem claim_C2_insufficient_funds
    (w : World) (from_acc to_acc : String) (amount : ℚ)
    (endpoint : Option String) (timeout : ℚ) (auth_token : Option String)
    (ep : String) (hs : List (String × String)) (b : ℚ)
    (hep : ep = effectiveEndpoint (endpoint.getD DEFAULT_ENDPOINT))
    (hhs : hs = mkHeaders auth_token)
    (hsrc : validate_account (w.respond (validateReq ep from_acc hs timeout)) = true)
    (hdst : validate_account (w.respond (validateReq ep to_acc hs timeout)) = true)
    (hbal : get_account_balance (w.respond (balanceReq ep from_acc hs timeout))
      = .ok (some b))
    (hlt : b < amount) :
    transfer_money w from_acc to_acc amount endpoint timeout auth_token
      = (.ok (some (insufficientFunds b amount)),
         [validateReq ep from_acc hs timeout, validateReq ep to_acc hs timeout,
          balanceReq ep from_acc hs timeout])
    ∧ ∀ r ∈ (transfer_money w from_acc to_acc amount endpoint timeout auth_token).2,
        r.method = HttpMethod.get := by
  subst hep hhs
  have hmain :
      transfer_money w from_acc to_acc amount endpoint timeout auth_token
        = (.ok (some (insufficientFunds b amount)),
           [validateReq (effectiveEndpoint (endpoint.getD DEFAULT_ENDPOINT))
              from_acc (mkHeaders auth_token) timeout,
            validateReq (effectiveEndpoint (endpoint.getD DEFAULT_ENDPOINT))
              to_acc (mkHeaders auth_token) timeout,
            balanceReq (effectiveEndpoint (endpoint.getD DEFAULT_ENDPOINT))
              from_acc (mkHeaders auth_token) timeout]) := by
    simp only [transfer_money]
    rw [hsrc, hdst, hbal]
    simp only [not_true_eq_false, if_false]
    rw [if_pos hlt]
  refine ⟨hmain, ?_⟩
  rw [hmain]
  intro r hr
  simp only [List.mem_cons, List.not_mem_nil, or_false] at hr
  rcases hr with h | h | h <;> subst h <;> rfl

/-- Network environment of the insufficient-funds scenario: both accounts
validate, balance 50. -/
def wLow : World :=
  ⟨fun req =>
    if req.url = balanceUrl "http://example" "ACC1000" then
      respOk (.obj [("id", .str "ACC1000"), ("balance", .num 50)])
    else respOk (.obj [])⟩

/-- C2 witness: amount 100 against balance 50 yields the structured
insufficient-funds dictionary and a GET-only trace. -/
theorem claim_C2_witness :
    transfer_money wLow "ACC1000" "ACC1001" 100 (some "http://example") 1 none
      = (.ok (some (insufficientFunds 50 100)),
         [validateReq "http://example" "ACC1000" [] 1,
          validateReq "http://example" "ACC1001" [] 1,
          balanceReq "http://example" "ACC1000" [] 1])
    ∧ ∀ r ∈ (transfer_money wLow "ACC1000" "ACC1001" 100
        (some "http://example") 1 none).2, r.method = HttpMethod.get :=
  claim_C2_insufficient_funds wLow "ACC1000" "ACC1001" 100
    (some "http://example") 1 none "http://example" [] 50
    rfl rfl rfl rfl rfl (by norm_num)

/-- C3: exactly HTTP 200 counts as valid (any other status or a transport
failure is invalid); an invalid source account makes `transfer_money`
return `None` with only the source-validation GET issued (no balance or
transfer request); an invalid destination account makes it return `None`
with only the two validation GETs issued (no transfer request). -/
theorem claim_C3_validation_short_circuit :
    (∀ resp : HttpResult,
      validate_account resp = true ↔ ∃ r, resp = some r ∧ r.status = 200)
    ∧ (∀ (w : World) (from_acc to_acc : String) (amount : ℚ)
        (endpoint : Option String) (timeout : ℚ) (auth_token : Option String),
        validate_account (w.respond (validateReq
          (effectiveEndpoint (endpoint.getD DEFAULT_ENDPOINT)) from_acc
          (mkHeaders auth_token) timeout)) = false →
        transfer_money w from_acc to_acc amount endpoint timeout auth_token
          = (.ok none,
             [validateReq (effectiveEndpoint (endpoint.getD DEFAULT_ENDPOINT))
                from_acc (mkHeaders auth_token) timeout]))
    ∧ (∀ (w : World) (from_acc to_acc : String) (amount : ℚ)
        (endpoint : Option String) (timeout : ℚ) (auth_token : Option String),
        validate_account (w.respond (validateReq
          (effectiveEndpoint (endpoint.getD DEFAULT_ENDPOINT)) from_acc
          (mkHeaders auth_token) timeout)) = true →
        validate_account (w.respond (validateReq
          (effectiveEndpoint (endpoint.getD DEFAULT_ENDPOINT)) to_acc
          (mkHeaders auth_token) timeout)) = false →
        transfer_money w from_acc to_acc amount endpoint timeout auth_token
          = (.ok none,
             [validateReq (effectiveEndpoint (endpoint.getD DEFAULT_ENDPOINT))
                from_acc (mkHeaders auth_token) timeout,
              validateReq (effectiveEndpoint (endpoint.getD DEFAULT_ENDPOINT))
                to_acc (mkHeaders auth_token) timeout])) := by
  refine ⟨?_, ?_, ?_⟩
  · intro resp
    cases resp with
    | none => simp [validate_account]
    | some r => simp [validate_account]
  · intro w from_acc to_acc amount endpoint timeout auth_token hsrc
    simp only [transfer_money]
    rw [hsrc]
    simp
  · intro w from_acc to_acc amount endpoint timeout auth_token hsrc hdst
    simp only [transfer_money]
    rw [hsrc, hdst]
    simp

/-- A 404 response with an empty JSON object body. -/
def resp404 : HttpResponse :=
  { status := 404, jsonBody := some (.obj []), text := "",
    contentType := "application/json" }

/-- Network environment where the source account's validation returns 404. -/
def wSrc404 : World :=
  ⟨fun req =>
    if req.url = validateUrl "http://example" "ACC1000" then some resp404
    else respOk (.obj [])⟩

/-- Network environment where the destination account's validation
returns 404. -/
def wDst404 : World :=
  ⟨fun req =>
    if req.url = validateUrl "http://example" "ACC1001" then some resp404
    else respOk (.obj [])⟩

/-- C3 witness: a 404 response is invalid; a failing source validation
yields `None` with a one-request trace; a failing destination validation
yields `None` with a two-request trace. -/
theorem claim_C3_witness :
    (validate_account (some resp404) = true
      ↔ ∃ r, (some resp404 : HttpResult) = some r ∧ r.status = 200)
    ∧ transfer_money wSrc404 "ACC1000" "ACC1001" 10 (some "http://example")
        1 none
        = (.ok none, [validateReq "http://example" "ACC1000" [] 1])
    ∧ transfer_money wDst404 "ACC1000" "ACC1001" 10 (some "http://example")
        1 none
        = (.ok none, [validateReq "http://example" "ACC1000" [] 1,
                      validateReq "http://example" "ACC1001" [] 1]) :=
  ⟨claim_C3_validation_short_circuit.1 _,
   claim_C3_validation_short_circuit.2.1 wSrc404 "ACC1000" "ACC1001" 10
     (some "http://example") 1 none rfl,
   claim_C3_validation_short_circuit.2.2 wDst404 "ACC1000" "ACC1001" 10
     (some "http://example") 1 none rfl rfl⟩

/-- C4: for a 2xx balance response, the body shapes
`{"balance": 1000.0}`, bare `1000.0`, and raw non-JSON text `"1000.0"`
all yield balance `1000.0`; a transport failure, an error status, an
unparseable body, or an unrecognised JSON shape yields `None`. -/
theorem claim_C4_balance_parsing
    : (∀ (s : Nat) (t ct : String), 200 ≤ s → s < 300 →
        get_account_balance (some (HttpResponse.mk s
            (some (.obj [("balance", .num 1000)])) t ct)) = .ok (some 1000)
        ∧ get_account_balance (some (HttpResponse.mk s
            (some (.num 1000)) t ct)) = .ok (some 1000)
        ∧ get_account_balance (some (HttpResponse.mk s
            none "1000.0" ct)) = .ok (some 1000))
    ∧ get_account_balance none = .ok none
    ∧ (∀ r : HttpResponse, 400 ≤ r.status →
        get_account_balance (some r) = .ok none)
    ∧ (∀ r : HttpResponse, r.status < 400 → r.jsonBody = none →
        pyFloatOfString (pyStrip r.text) = none →
        get_account_balance (some r) = .ok none)
    ∧ (∀ (r : HttpResponse) (d : Json), r.status < 400 → r.jsonBody = some d →
        (∀ fields, d = .obj fields →
          Json.lookupField fields "balance" = none) →
        isPyNumber d = false →
        get_account_balance (some r) = .ok none) := by
  refine ⟨?_, rfl, ?_, ?_, ?_⟩
  · intro s t ct h1 h2
    refine ⟨?_, ?_, ?_⟩
    · simp only [get_account_balance]
      rw [if_neg (by omega : ¬ 400 ≤ s)]
      rfl
    · simp only [get_account_balance]
      rw [if_neg (by omega : ¬ 400 ≤ s)]
      rfl
    · simp only [get_account_balance]
      rw [if_neg (by omega : ¬ 400 ≤ s)]
      have h : pyFloatOfString (pyStrip "1000.0") = some 1000 := by decide
      simp only [h]
  · intro r h
    simp only [get_account_balance]
    rw [if_pos h]
  · intro r h1 h2 h3
    simp only [get_account_balance]
    rw [if_neg (by omega : ¬ 400 ≤ r.status), h2, h3]
  · intro r d h1 h2 hnob hnum
    simp only [get_account_balance]
    rw [if_neg (by omega : ¬ 400 ≤ r.status), h2]
    cases d with
    | obj fields => simp [balanceFromJson, hnob fields rfl]
    | null => rfl
    | str s => rfl
    | arr xs => rfl
    | bool b => simp [isPyNumber] at hnum
    | num q => simp [isPyNumber] at hnum

/-- C4 witness: the three accepted shapes at status 200 all yield 1000,
and unparseable raw text yields `None`. -/
theorem claim_C4_witness :
    get_account_balance (some (HttpResponse.mk 200
        (some (.obj [("balance", .num 1000)])) "" "application/json"))
      = .ok (some 1000)
    ∧ get_account_balance (some (HttpResponse.mk 200
        (some (.num 1000)) "" "application/json")) = .ok (some 1000)
    ∧ get_account_balance (some (HttpResponse.mk 200
        none "1000.0" "text/plain")) = .ok (some 1000)
    ∧ get_account_balance (some (HttpResponse.mk 200
        none "not-a-number" "text/plain")) = .ok none :=
  ⟨(claim_C4_balance_parsing.1 200 "" "application/json"
      (by decide) (by decide)).1,
   (claim_C4_balance_parsing.1 200 "" "application/json"
      (by decide) (by decide)).2.1,
   (claim_C4_balance_parsing.1 200 "" "text/plain"
      (by decide) (by decide)).2.2,
   claim_C4_balance_parsing.2.2.2.1
     (HttpResponse.mk 200 none "not-a-number" "text/plain")
     (by decide) rfl (by decide)⟩

/-- C5: the transfer POST target for base `http://example` is
`http://example/transfer`; a base already ending in `/transfer` is used
unchanged; and every POST in a `transfer_money` trace goes to exactly
this derived URL. -/
theorem claim_C5_transfer_url
    : transferUrl "http://example" = "http://example/transfer"
    ∧ transferUrl "http://example/transfer" = "http://example/transfer"
    ∧ (∀ (w : World) (from_acc to_acc : String) (amount : ℚ)
        (endpoint : Option String) (timeout : ℚ) (auth_token : Option String)
        (r : Request),
        r ∈ (transfer_money w from_acc to_acc amount endpoint timeout
          auth_token).2 →
        r.method = HttpMethod.post →
        r.url = transferUrl (effectiveEndpoint (endpoint.getD DEFAULT_ENDPOINT))) := by
  refine ⟨by decide, by decide, ?_⟩
  intro w from_acc to_acc amount endpoint timeout auth_token r hr hpost
  simp only [transfer_money] at hr
  split at hr
  · simp only [List.mem_singleton] at hr
    subst hr
    exact absurd hpost (by simp [validateReq])
  · split at hr
    · simp only [List.mem_cons, List.not_mem_nil, or_false] at hr
      rcases hr with h | h <;> subst h <;> exact absurd hpost (by simp [validateReq])
    · split at hr
      · simp only [List.mem_cons, List.not_mem_nil, or_false] at hr
        rcases hr with h | h | h <;> subst h <;>
          exact absurd hpost (by simp [validateReq, balanceReq])
      · simp only [List.mem_cons, List.not_mem_nil, or_false] at hr
        rcases hr with h | h | h <;> subst h <;>
          exact absurd hpost (by simp [validateReq, balanceReq])
      · split at hr
        · simp only [List.mem_cons, List.not_mem_nil, or_false] at hr
          rcases hr with h | h | h <;> subst h <;>
            exact absurd hpost (by simp [validateReq, balanceReq])
        · simp only [List.mem_cons, List.not_mem_nil, or_false] at hr
          rcases hr with h | h | h | h <;> subst h
          · exact absurd hpost (by simp [validateReq])
          · exact absurd hpost (by simp [validateReq])
          · exact absurd hpost (by simp [balanceReq])
          · rfl

/-- C5 witness: in the end-to-end success scenario the issued POST's URL
is the derived transfer URL. -/
theorem claim_C5_witness :
    (transferReq "http://example" "ACC1000" "ACC1001" 100 [] 1).url
      = transferUrl (effectiveEndpoint ((some "http://example").getD
          DEFAULT_ENDPOINT)) :=
  claim_C5_transfer_url.2.2 wSuccess "ACC1000" "ACC1001" 100
    (some "http://example") 1 none
    (transferReq "http://example" "ACC1000" "ACC1001" 100 [] 1)
    (by simp [show (transfer_money wSuccess "ACC1000" "ACC1001" 100
        (some "http://example") 1 none).2
      = [validateReq "http://example" "ACC1000" [] 1,
         validateReq "http://example" "ACC1001" [] 1,
         balanceReq "http://example" "ACC1000" [] 1,
         transferReq "http://example" "ACC1000" "ACC1001" 100 [] 1] from rfl])
    rfl

/-- Stripping one trailing slash before the `rstrip('/')` is a no-op. -/
theorem rstripSlash_append_slash (s : String) :
    rstripSlash (s ++ "/") = rstripSlash s := by
  simp [rstripSlash, String.toList, List.dropWhile]

/-- C9: all trailing slashes are stripped from the endpoint before the
`/transfer` suffix check: `http://example/transfer/` and
`http://example//` both POST to `http://example/transfer`, and appending
a trailing slash to any endpoint never changes the POST target. -/
theorem claim_C9_trailing_slash_normalization
    : transferUrl "http://example/transfer/" = "http://example/transfer"
    ∧ transferUrl "http://example//" = "http://example/transfer"
    ∧ ∀ s : String, transferUrl (s ++ "/") = transferUrl s := by
  refine ⟨by decide, by decide, ?_⟩
  intro s
  simp only [transferUrl, rstripSlash_append_slash]

/-- Every request issued by `transfer_money` carries exactly the headers
built from the auth token at lines 179–181. -/
theorem trace_headers_eq_mkHeaders
    (w : World) (from_acc to_acc : String) (amount : ℚ)
    (endpoint : Option String) (timeout : ℚ) (auth_token : Option String) :
    ∀ r ∈ (transfer_money w from_acc to_acc amount endpoint timeout
      auth_token).2, r.headers = mkHeaders auth_token := by
  intro r hr
  simp only [transfer_money] at hr
  split at hr
  · simp only [List.mem_singleton] at hr
    subst hr; rfl
  · split at hr
    · simp only [List.mem_cons, List.not_mem_nil, or_false] at hr
      rcases hr with h | h <;> subst h <;> rfl
    · split at hr
      · simp only [List.mem_cons, List.not_mem_nil, or_false] at hr
        rcases hr with h | h | h <;> subst h <;> rfl
      · simp only [List.mem_cons, List.not_mem_nil, or_false] at hr
        rcases hr with h | h | h <;> subst h <;> rfl
      · split at hr
        · simp only [List.mem_cons, List.not_mem_nil, or_false] at hr
          rcases hr with h | h | h <;> subst h <;> rfl
        · simp only [List.mem_cons, List.not_mem_nil, or_false] at hr
          rcases hr with h | h | h | h <;> subst h <;> rfl

/-- C8: an empty-string auth token attaches no `Authorization` header to
any outgoing request of `transfer_money`; only a non-empty token value
produces the `Authorization: Bearer {token}` header. -/
theorem claim_C8_empty_token_no_auth_header
    : (∀ (w : World) (from_acc to_acc : String) (amount : ℚ)
        (endpoint : Option String) (timeout : ℚ) (r : Request),
        r ∈ (transfer_money w from_acc to_acc amount endpoint timeout
          (some "")).2 →
        ∀ v, ("Authorization", v) ∉ r.headers)
    ∧ (∀ t : String, t ≠ "" →
        mkHeaders (some t) = [("Authorization", "Bearer " ++ t)])
    ∧ mkHeaders (some "") = [] ∧ mkHeaders none = [] := by
  refine ⟨?_, ?_, rfl, rfl⟩
  · intro w from_acc to_acc amount endpoint timeout r hr v
    have h := trace_headers_eq_mkHeaders w from_acc to_acc amount endpoint
      timeout (some "") r hr
    rw [h]
    simp [mkHeaders]
  · intro t ht
    simp [mkHeaders, ht]

/-- C8 witness: with an empty-string token, the issued source-validation
request carries no `Authorization` header; a non-empty token produces the
bearer header. -/
theorem claim_C8_witness :
    ("Authorization", "Bearer x")
      ∉ (validateReq "http://example" "ACC1000" [] 1).headers
    ∧ mkHeaders (some "tok") = [("Authorization", "Bearer tok")] :=
  ⟨claim_C8_empty_token_no_auth_header.1 wSuccess "ACC1000" "ACC1001" 100
      (some "http://example") 1 (validateReq "http://example" "ACC1000" [] 1)
      (by simp [show (transfer_money wSuccess "ACC1000" "ACC1001" 100
          (some "http://example") 1 (some "")).2
        = [validateReq "http://example" "ACC1000" [] 1,
           validateReq "http://example" "ACC1001" [] 1,
           balanceReq "http://example" "ACC1000" [] 1,
           transferReq "http://example" "ACC1000" "ACC1001" 100 [] 1]
        from rfl]) "Bearer x",
   claim_C8_empty_token_no_auth_header.2.1 "tok" (by decide)⟩

/-- C10: a 2xx balance response whose JSON body is the boolean `true` or
`false` is accepted by the bare-number branch (`bool` is an `int` in
Python) and yields balance 1 or 0 respectively, not `None`. -/
theorem claim_C10_bool_balance
    : ∀ (s : Nat) (t ct : String), 200 ≤ s → s < 300 →
      get_account_balance (some (HttpResponse.mk s
          (some (.bool true)) t ct)) = .ok (some 1)
      ∧ get_account_balance (some (HttpResponse.mk s
          (some (.bool false)) t ct)) = .ok (some 0) := by
  intro s t ct h1 h2
  constructor <;>
    · simp only [get_account_balance]
      rw [if_neg (by omega : ¬ 400 ≤ s)]
      rfl

/-- C10 witness: status 200, body `true` yields balance 1 and body
`false` yields balance 0. -/
theorem claim_C10_witness :
    get_account_balance (some (HttpResponse.mk 200
        (some (.bool true)) "" "application/json")) = .ok (some 1)
    ∧ get_account_balance (some (HttpResponse.mk 200
        (some (.bool false)) "" "application/json")) = .ok (some 0) :=
  claim_C10_bool_balance 200 "" "application/json" (by decide) (by decide)

/-- The balance response exhibits only the spec's enumerated error
categories: whenever it is a delivered response whose JSON body is an
object with a `balance` field, that field is a number, boolean or string
(anything `float()` either converts or rejects with `ValueError`). A
`None`/list/dict `balance` field is outside the enumerated categories:
there `float()` raises `TypeError`, which the module does not catch. -/
def balanceRespAdmissible (resp : HttpResult) : Prop :=
  ∀ r, resp = some r → ∀ fields, r.jsonBody = some (.obj fields) →
    ∀ v, Json.lookupField fields "balance" = some v →
      (∃ q, v = .num q) ∨ (∃ b, v = .bool b) ∨ (∃ s, v = .str s)

/-- On admissible `balance` fields, `balanceFromJson` never raises. -/
theorem balanceFromJson_no_exn (data : Json) (text : String)
    (h : ∀ fields, data = .obj fields →
      ∀ v, Json.lookupField fields "balance" = some v →
        (∃ q, v = .num q) ∨ (∃ b, v = .bool b) ∨ (∃ s, v = .str s)) :
    ∃ o, balanceFromJson data text = .ok o := by
  cases data with
  | obj fields =>
    simp only [balanceFromJson]
    cases hv : Json.lookupField fields "balance" with
    | none => exact ⟨none, rfl⟩
    | some v =>
      rcases h fields rfl v hv with ⟨q, rfl⟩ | ⟨b, rfl⟩ | ⟨t, rfl⟩
      · exact ⟨_, rfl⟩
      · exact ⟨_, rfl⟩
      · simp only [pyFloatOfJson]
        cases pyFloatOfString t with
        | none => exact ⟨_, rfl⟩
        | some q => exact ⟨_, rfl⟩
  | null => exact ⟨none, rfl⟩
  | bool b => exact ⟨_, rfl⟩
  | num q => exact ⟨_, rfl⟩
  | str t => exact ⟨none, rfl⟩
  | arr xs => exact ⟨none, rfl⟩

/-- On admissible responses, `get_account_balance` never raises. -/
theorem get_account_balance_no_exn (resp : HttpResult)
    (h : balanceRespAdmissible resp) :
    ∃ o, get_account_balance resp = .ok o := by
  cases resp with
  | none => exact ⟨none, rfl⟩
  | some r =>
    simp only [get_account_balance]
    by_cases hst : 400 ≤ r.status
    · rw [if_pos hst]; exact ⟨none, rfl⟩
    · rw [if_neg hst]
      cases hb : r.jsonBody with
      | none => exact ⟨_, rfl⟩
      | some data =>
        exact balanceFromJson_no_exn data r.text
          (fun fields hf v hv => h r rfl fields (hf ▸ hb) v hv)

/-- C6: for every input whose balance response exhibits only the spec's
enumerated error categories (transport failure, unexpected HTTP status,
malformed response body), `transfer_money` raises nothing and returns
exactly one of the three shapes: `None`, the structured
insufficient-funds dictionary, or the interpreted success payload of the
transfer POST. -/
theorem claim_C6_total_three_shapes
    (w : World) (from_acc to_acc : String) (amount : ℚ)
    (endpoint : Option String) (timeout : ℚ) (auth_token : Option String)
    (ep : String) (hs : List (String × String))
    (hep : ep = effectiveEndpoint (endpoint.getD DEFAULT_ENDPOINT))
    (hhs : hs = mkHeaders auth_token)
    (hadm : balanceRespAdmissible
      (w.respond (balanceReq ep from_acc hs timeout))) :
    ∃ v, (transfer_money w from_acc to_acc amount endpoint timeout
        auth_token).1 = .ok v
      ∧ (v = none
         ∨ (∃ b, v = some (insufficientFunds b amount))
         ∨ v = interpretTransfer (w.respond
             (transferReq ep from_acc to_acc amount hs timeout))) := by
  subst hep hhs
  by_cases h1 : validate_account (w.respond (validateReq
      (effectiveEndpoint (endpoint.getD DEFAULT_ENDPOINT)) from_acc
      (mkHeaders auth_token) timeout)) = true
  · by_cases h2 : validate_account (w.respond (validateReq
        (effectiveEndpoint (endpoint.getD DEFAULT_ENDPOINT)) to_acc
        (mkHeaders auth_token) timeout)) = true
    · obtain ⟨o, ho⟩ := get_account_balance_no_exn _ hadm
      cases o with
      | none =>
        refine ⟨none, ?_, Or.inl rfl⟩
        simp only [transfer_money]
        rw [h1, h2, ho]
        simp
      | some b =>
        by_cases hlt : b < amount
        · refine ⟨some (insufficientFunds b amount), ?_,
            Or.inr (Or.inl ⟨b, rfl⟩)⟩
          simp only [transfer_money]
          rw [h1, h2, ho]
          simp only [not_true_eq_false, if_false]
          rw [if_pos hlt]
        · refine ⟨interpretTransfer (w.respond (transferReq
              (effectiveEndpoint (endpoint.getD DEFAULT_ENDPOINT)) from_acc
              to_acc amount (mkHeaders auth_token) timeout)), ?_,
            Or.inr (Or.inr rfl)⟩
          simp only [transfer_money]
          rw [h1, h2, ho]
          simp only [not_true_eq_false, if_false]
          rw [if_neg hlt]
    · refine ⟨none, ?_, Or.inl rfl⟩
      simp only [transfer_money]
      rw [Bool.not_eq_true] at h2
      rw [h1, h2]
      simp
  · refine ⟨none, ?_, Or.inl rfl⟩
    simp only [transfer_money]
    rw [Bool.not_eq_true] at h1
    rw [h1]
    simp

/-- Network environment where every request suffers a transport failure. -/
def wFail : World := ⟨fun _ => none⟩

/-- C6 witness: under total transport failure the result is one of the
three shapes (here `None`), with no exception. -/
theorem claim_C6_witness :
    ∃ v, (transfer_money wFail "ACC1000" "ACC1001" 100
        (some "http://example") 1 none).1 = .ok v
      ∧ (v = none
         ∨ (∃ b, v = some (insufficientFunds b 100))
         ∨ v = interpretTransfer (wFail.respond
             (transferReq "http://example" "ACC1000" "ACC1001" 100 [] 1))) :=
  claim_C6_total_three_shapes wFail "ACC1000" "ACC1001" 100
    (some "http://example") 1 none "http://example" [] rfl rfl
    (fun _ hr => nomatch hr)

/-- C7 counterexample: a 2xx auth response that does contain a `token`
field, with the empty string as its value, makes `get_auth_token` return
`None` instead of the token string — Python truthiness (`if token:`)
rejects the empty string. -/
theorem claim_C7_counterexample :
    Json.lookupField [("token", Json.str "")] "token" = some (Json.str "")
    ∧ get_auth_token (some (HttpResponse.mk 200
        (some (.obj [("token", Json.str "")])) "" "application/json"))
      = .ok none
    ∧ (Except.ok none : Except PyExn (Option Json))
        ≠ .ok (some (Json.str "")) := by
  refine ⟨rfl, rfl, ?_⟩
  intro h
  exact Option.noConfusion (Except.ok.inj h)

/-- C7 (amended): `get_auth_token` returns the token string whenever the
response has a 2xx status and its JSON object body contains a truthy
(non-empty, non-falsy) `token` or `access_token` field; it returns `None`
on a missing or falsy token field, a transport failure, an error status,
or an unparseable JSON body — in all these cases without raising. -/
theorem claim_C7_auth_token
    : (∀ (r : HttpResponse) (fields : List (String × Json)) (t : String),
        200 ≤ r.status → r.status < 300 →
        r.jsonBody = some (.obj fields) →
        pyTokenOf fields = some (.str t) →
        get_auth_token (some r) = .ok (some (.str t)))
    ∧ get_auth_token none = .ok none
    ∧ (∀ r : HttpResponse, 400 ≤ r.status →
        get_auth_token (some r) = .ok none)
    ∧ (∀ r : HttpResponse, r.status < 400 → r.jsonBody = none →
        get_auth_token (some r) = .ok none)
    ∧ (∀ (r : HttpResponse) (fields : List (String × Json)),
        r.status < 400 → r.jsonBody = some (.obj fields) →
        pyTokenOf fields = none → get_auth_token (some r) = .ok none) := by
  refine ⟨?_, rfl, ?_, ?_, ?_⟩
  · intro r fields t h1 h2 hb htok
    simp only [get_auth_token]
    rw [if_neg (by omega : ¬ 400 ≤ r.status), hb]
    simp [htok]
  · intro r h
    simp only [get_auth_token]
    rw [if_pos h]
  · intro r h1 hb
    simp only [get_auth_token]
    rw [if_neg (by omega : ¬ 400 ≤ r.status), hb]
  · intro r fields h1 hb htok
    simp only [get_auth_token]
    rw [if_neg (by omega : ¬ 400 ≤ r.status), hb]
    simp [htok]

/-- C7 witness: status 200 with body `{"token": "tok"}` yields the token
string `tok`. -/
theorem claim_C7_witness :
    get_auth_token (some (HttpResponse.mk 200
        (some (.obj [("token", Json.str "tok")])) "" "application/json"))
      = .ok (some (Json.str "tok")) :=
  claim_C7_auth_token.1
    (HttpResponse.mk 200 (some (.obj [("token", Json.str "tok")])) ""
      "application/json")
    [("token", Json.str "tok")] "tok" (by decide) (by decide) rfl rfl
